import Mathlib

/-!
Shallow embedding of the frame-pacing scheduler (`SessionConnection` in
`session_connection.cc`) and the process-wide vsync cache (`VsyncRecorder`
in `vsync_recorder.cc`).

Times are modelled as integers (nanoseconds since the epoch), matching
`fml::TimePoint` / `fml::TimeDelta`, which are 64-bit nanosecond counts.
Compositor prediction entries are `(latch_point, presentation_time)` pairs,
matching the `std::deque<std::pair<fml::TimePoint, fml::TimePoint>>` of
`future_presentation_infos_` and the fields of
`fuchsia::scenic::scheduling::PresentationInfo`.
-/

namespace FlutterRunner

/-- `kDefaultPresentationInterval = fml::TimeDelta::FromSecondsF(1.0 / 60.0)`
in nanoseconds: the double `1.0/60.0 * 1e9 ≈ 16666666.67` truncated to an
integer nanosecond count. -/
def kDefaultPresentationIntervalNs : ℤ := 16666666

/-- The value returned by `VsyncRecorder::GetCurrentVsyncInfo` (the variant in
`vsync_recorder.cc`, which also carries the latch point; the variant used by
the scheduler has only `presentation_time` and `presentation_interval`). -/
structure VsyncInfo where
  presentation_time : ℤ
  latch_point : ℤ
  presentation_interval : ℤ
deriving Repr, DecidableEq

/-- The cached `next_presentation_info_` of the process-wide `VsyncRecorder`:
the fields read and written by `UpdateFuturePresentationTimes` and
`GetCurrentVsyncInfo`. -/
structure VsyncRecorderState where
  next_presentation_time : ℤ
  next_latch_point : ℤ
deriving Repr, DecidableEq

/-- The default-constructed cache: both fields of the stored
`fuchsia::scenic::scheduling::PresentationInfo` start at 0, consistent with
the repository's `DefaultValues_AreReasonable` test, which reads the cache
before any update and expects a presentation time `≥ 0`. -/
def initialVsyncRecorderState : VsyncRecorderState :=
  { next_presentation_time := 0, next_latch_point := 0 }

/-- `VsyncRecorder::GetCurrentVsyncInfo`: returns the cached next presentation
info together with the constant default interval.  The `return
{fml::TimePoint::Now(), …}` line after the scoped block in the source is
unreachable (the block always returns first), so the result does not depend
on the current time. -/
def GetCurrentVsyncInfo (st : VsyncRecorderState) : VsyncInfo :=
  { presentation_time := st.next_presentation_time
    latch_point := st.next_latch_point
    presentation_interval := kDefaultPresentationIntervalNs }

/-- `VsyncRecorder::UpdateFuturePresentationTimes` (identical, for the
presentation time, to `FuturePresentationTimesUpdate` in the other variant):
scan `info.future_presentations` in order; at the first entry whose
presentation time is strictly greater than the cached one, overwrite the
cached entry and stop. -/
def UpdateFuturePresentationTimes (st : VsyncRecorderState)
    (future_presentations : List (ℤ × ℤ)) : VsyncRecorderState :=
  match future_presentations with
  | [] => st
  | p :: rest =>
    if st.next_presentation_time < p.2 then
      { next_presentation_time := p.2, next_latch_point := p.1 }
    else
      UpdateFuturePresentationTimes st rest

/-- The file-local `get_next_target_presentation_time` of
`session_connection.cc`: find the first future presentation info whose latch
time is at least `present_requested_time + minimum_frame_build_time` and
whose presentation time is at least `last_targeted_present +
presentation_interval`; target it minus half an interval, or fall back to
`max(earliest_latch_time, earliest_vsync_time)` when none qualifies; then
cap by `present_requested_time + presentation_interval *
max_frames_in_flight`. -/
def get_next_target_presentation_time
    (present_requested_time last_targeted_present : ℤ)
    (minimum_frame_build_time : ℤ)
    (max_frames_in_flight : ℤ)
    (future_presentation_infos : List (ℤ × ℤ))
    (vsync_info : VsyncInfo) : ℤ :=
  let earliest_latch_time := present_requested_time + minimum_frame_build_time
  let earliest_vsync_time := last_targeted_present + vsync_info.presentation_interval
  let found := future_presentation_infos.find? fun p =>
    decide (earliest_latch_time ≤ p.1) && decide (earliest_vsync_time ≤ p.2)
  let target_presentation_time :=
    match found with
    | none => max earliest_latch_time earliest_vsync_time
    | some p => p.2 - Int.tdiv vsync_info.presentation_interval 2
  min target_presentation_time
    (present_requested_time + vsync_info.presentation_interval * max_frames_in_flight)

/-- `fml::TimePoint::Min()`: the smallest 64-bit nanosecond count, used by
`SessionConnection` as the "no present requested" sentinel. -/
def fmlTimePointMin : ℤ := -(2 ^ 63)

/-- Construction-time constants of a `SessionConnection`: the
`kMaxFramesInFlight` throttle and `minimum_frame_build_time_` (their values
live in the class header, which is not part of these sources; the spec calls
them `max_in_flight`, a compile-time constant, and `min_build_time`, a
tunable estimate that may default to zero). -/
structure Config where
  kMaxFramesInFlight : ℤ
  minimum_frame_build_time : ℤ
deriving Repr, DecidableEq

/-- One `session_wrapper_.Present2(requested_presentation_time,
requested_prediction_span, callback)` call, as recorded for inspection. -/
structure Submission where
  requested_presentation_time : ℤ
  requested_prediction_span : ℤ
deriving Repr, DecidableEq

/-- The mutable fields of one `SessionConnection` that the pacing logic reads
and writes, together with the process-wide vsync cache it consults, the
recorded `Present2` calls, and a count of `Present2` reply callbacks not yet
delivered (each `Present2` registers exactly one). -/
structure SessionState where
  initialized : Bool
  present_session_pending : Bool
  frames_in_flight : ℤ
  frames_in_flight_allowed : ℤ
  last_targeted_present : ℤ
  present_requested_time : ℤ
  future_presentation_infos : List (ℤ × ℤ)
  vsync : VsyncRecorderState
  signal_high : Bool
  outstanding_present2 : ℕ
  submissions : List Submission
deriving Repr, DecidableEq

/-- The state at construction, before the `RequestPresentationTimes` reply:
counters at zero, `last_targeted_present_` the default epoch time point,
`present_requested_time_` the `Min()` sentinel, no predictions. -/
def initialSessionState : SessionState :=
  { initialized := false
    present_session_pending := false
    frames_in_flight := 0
    frames_in_flight_allowed := 0
    last_targeted_present := 0
    present_requested_time := fmlTimePointMin
    future_presentation_infos := []
    vsync := initialVsyncRecorderState
    signal_high := false
    outstanding_present2 := 0
    submissions := [] }

/-- `SessionConnection::PresentSession`, with `nowPS` the value of
`fml::TimePoint::Now()` read inside the call.  `none` models a fatal
`FML_CHECK` failure: either `frames_in_flight_allowed_ == 0` while
initialized with no present pending, or `present_requested_time_` still at
the `Min()` sentinel.  On success the frame is dispatched: the in-flight
count grows by one, the target presentation time is computed, clamped to be
at least `last_targeted_present_`, and stored, the requested-time sentinel
is restored, and a `Present2` call is recorded whose requested presentation
time is the debug value `Now() + presentation_interval * 3` (the line
passing the computed target is commented out in the source). -/
def PresentSession (cfg : Config) (nowPS : ℤ) (st : SessionState) :
    Option SessionState :=
  if st.frames_in_flight_allowed = 0 then
    if st.initialized = false ∨ st.present_session_pending = true then
      some st
    else
      none
  else if st.present_requested_time ≤ fmlTimePointMin then
    none
  else
    let vsync_info := GetCurrentVsyncInfo st.vsync
    let computed := get_next_target_presentation_time
      st.present_requested_time st.last_targeted_present
      cfg.minimum_frame_build_time cfg.kMaxFramesInFlight
      st.future_presentation_infos vsync_info
    let target_presentation_time :=
      if computed < st.last_targeted_present then st.last_targeted_present
      else computed
    let next := nowPS + vsync_info.presentation_interval * 3
    some { st with
      present_session_pending := false
      frames_in_flight := st.frames_in_flight + 1
      last_targeted_present := target_presentation_time
      present_requested_time := fmlTimePointMin
      outstanding_present2 := st.outstanding_present2 + 1
      submissions := st.submissions ++
        [{ requested_presentation_time := next
           requested_prediction_span := vsync_info.presentation_interval * 6 }] }

/-- The external stimuli one `SessionConnection` reacts to.  Clock readings
(`now` for `fml::TimePoint::Now()` in the caller, `nowPS` for the reading
inside `PresentSession`) and everything the compositor sends are event
data. -/
inductive Event where
  /-- The reply to the startup `RequestPresentationTimes` call: remaining
  capacity and the future presentation forecast. -/
  | initReply (remaining : ℤ) (future_presentations : List (ℤ × ℤ))
      (now nowPS : ℤ)
  /-- A `SessionConnection::Present` call from the rendering pipeline. -/
  | present (now nowPS : ℤ)
  /-- The `OnFramePresented` event: `num_presents_handled` finalized frames
  (the handler fires only when one or more frames were presented, and only
  frames actually in flight can be finalized) and the updated
  `num_presents_allowed`. -/
  | onFramePresented (num_presents_handled : ℕ) (num_presents_allowed : ℤ)
      (nowPS : ℤ)
  /-- The async reply to an outstanding `Present2` call: remaining capacity
  and the fresh future presentation forecast. -/
  | present2Reply (remaining : ℤ) (future_presentations : List (ℤ × ℤ))
deriving Repr, DecidableEq

/-- One transition of the scheduler.  `none` covers both a fatal
`FML_CHECK`/`FML_DCHECK` failure and an event that cannot fire in the given
state (a second `RequestPresentationTimes` reply, a `Present2` reply with no
outstanding call, an `OnFramePresented` with no frame in flight). -/
def step (cfg : Config) (st : SessionState) (ev : Event) :
    Option SessionState :=
  match ev with
  | .initReply remaining future_presentations now nowPS =>
    if st.initialized = true then
      none
    else if remaining ≤ 0 then
      none
    else
      PresentSession cfg nowPS { st with
        frames_in_flight_allowed := remaining
        vsync := UpdateFuturePresentationTimes st.vsync future_presentations
        signal_high := true
        initialized := true
        present_requested_time := now }
  | .present now nowPS =>
    let st1 := { st with present_requested_time := now }
    if st1.initialized = true ∧ st1.frames_in_flight < cfg.kMaxFramesInFlight then
      PresentSession cfg nowPS st1
    else if st1.frames_in_flight = cfg.kMaxFramesInFlight ∨ st1.initialized = false then
      some { st1 with present_session_pending := true, signal_high := false }
    else
      none
  | .onFramePresented num_presents_handled num_presents_allowed nowPS =>
    if num_presents_handled = 0 ∨ st.frames_in_flight < (num_presents_handled : ℤ) then
      none
    else
      let st1 := { st with
        frames_in_flight_allowed := num_presents_allowed
        frames_in_flight := st.frames_in_flight - (num_presents_handled : ℤ) }
      (if st1.present_session_pending = true then PresentSession cfg nowPS st1
       else some st1).map
        fun st2 => { st2 with signal_high := true }
  | .present2Reply remaining future_presentations =>
    if st.outstanding_present2 = 0 then
      none
    else
      some { st with
        outstanding_present2 := st.outstanding_present2 - 1
        frames_in_flight_allowed := remaining
        future_presentation_infos := future_presentations
        vsync := UpdateFuturePresentationTimes st.vsync future_presentations }

/-- Run a sequence of events from a state; `none` as soon as one step is
fatal or impossible. -/
def run (cfg : Config) (st : SessionState) : List Event → Option SessionState
  | [] => some st
  | ev :: evs => (step cfg st ev).bind fun st' => run cfg st' evs

/-- The state reached from the initial state by one `Present` call before
initialization: the request is recorded, the submission is marked pending,
the capacity signal is cleared. -/
def throttledFromInitial : SessionState :=
  { initialSessionState with
      present_requested_time := 5
      present_session_pending := true
      signal_high := false }

/-- The in-flight bookkeeping invariant the code maintains: the counter is
non-negative, bounded by the `kMaxFramesInFlight` throttle, and zero before
initialization. -/
def FramesInFlightInv (cfg : Config) (st : SessionState) : Prop :=
  0 ≤ st.frames_in_flight ∧ st.frames_in_flight ≤ cfg.kMaxFramesInFlight ∧
    (st.initialized = false → st.frames_in_flight = 0)

/-- The state after the startup `RequestPresentationTimes` reply granting
capacity 1 at clock reading 0: one frame was submitted at once, with clamped
target `0 + interval = 16666666` ns, while the `Present2` call asked for the
debug time `0 + 3 * interval = 49999998` ns with a prediction span of
`6 * interval = 99999996` ns. -/
def stateAfterFirstSubmit : SessionState :=
  { initialized := true
    present_session_pending := false
    frames_in_flight := 1
    frames_in_flight_allowed := 1
    last_targeted_present := 16666666
    present_requested_time := fmlTimePointMin
    future_presentation_infos := []
    vsync := initialVsyncRecorderState
    signal_high := true
    outstanding_present2 := 1
    submissions := [{ requested_presentation_time := 49999998
                      requested_prediction_span := 99999996 }] }

/-- `stateAfterFirstSubmit` after the `Present2` reply reported remaining
capacity 0 while the frame is still in flight. -/
def stateCapacityZero : SessionState :=
  { stateAfterFirstSubmit with
      frames_in_flight_allowed := 0
      outstanding_present2 := 0 }

/-- The throttled state used to witness part two of C6: a pending submission
with one frame in flight and a real requested time. -/
def examplePendingState : SessionState :=
  { initialized := true
    present_session_pending := true
    frames_in_flight := 1
    frames_in_flight_allowed := 1
    last_targeted_present := 16666666
    present_requested_time := 7
    future_presentation_infos := []
    vsync := initialVsyncRecorderState
    signal_high := false
    outstanding_present2 := 1
    submissions := [] }

/-- Exhaustive description of a successful `PresentSession` call: either the
no-budget early return left the state unchanged, or one frame was
dispatched — the in-flight count grew by one, the pending flag was cleared,
`last_targeted_present_` did not move backwards, and the initialization flag
and allowed count were untouched. -/
theorem PresentSession_cases (cfg : Config) (nowPS : ℤ) (st st' : SessionState)
    (h : PresentSession cfg nowPS st = some st') :
    (st' = st ∧ st.frames_in_flight_allowed = 0) ∨
    (st'.frames_in_flight = st.frames_in_flight + 1 ∧
      st'.initialized = st.initialized ∧
      st'.present_session_pending = false ∧
      st'.frames_in_flight_allowed = st.frames_in_flight_allowed ∧
      st.last_targeted_present ≤ st'.last_targeted_present) := by
  unfold PresentSession at h
  by_cases ha : st.frames_in_flight_allowed = 0
  · rw [if_pos ha] at h
    by_cases hb : st.initialized = false ∨ st.present_session_pending = true
    · rw [if_pos hb] at h
      injection h with h
      exact Or.inl ⟨h.symm, ha⟩
    · rw [if_neg hb] at h
      exact Option.noConfusion h
  · rw [if_neg ha] at h
    by_cases hc : st.present_requested_time ≤ fmlTimePointMin
    · rw [if_pos hc] at h
      exact Option.noConfusion h
    · rw [if_neg hc] at h
      dsimp only at h
      injection h with h
      subst h
      refine Or.inr ⟨rfl, rfl, rfl, rfl, ?_⟩
      dsimp only
      split
      · exact le_rfl
      · exact le_of_not_lt (by assumption)

/-- A `PresentSession` call with a nonzero allowed count and a real (non
sentinel) requested time succeeds. -/
theorem PresentSession_success (cfg : Config) (nowPS : ℤ) (st : SessionState)
    (ha : st.frames_in_flight_allowed ≠ 0)
    (hr : fmlTimePointMin < st.present_requested_time) :
    ∃ st', PresentSession cfg nowPS st = some st' := by
  unfold PresentSession
  rw [if_neg ha, if_neg (not_le.mpr hr)]
  exact ⟨_, rfl⟩

/-- C4: for every input with a positive frame budget and a positive
presentation interval, `get_next_target_presentation_time` returns at most
`present_requested_time + presentation_interval * max_frames_in_flight`. -/
theorem target_presentation_time_le_cap
    (present_requested_time last_targeted_present minimum_frame_build_time
      max_frames_in_flight : ℤ)
    (future_presentation_infos : List (ℤ × ℤ)) (vsync_info : VsyncInfo)
    (hmax : 0 < max_frames_in_flight)
    (hint : 0 < vsync_info.presentation_interval) :
    get_next_target_presentation_time present_requested_time
        last_targeted_present minimum_frame_build_time max_frames_in_flight
        future_presentation_infos vsync_info ≤
      present_requested_time +
        vsync_info.presentation_interval * max_frames_in_flight := by
  unfold get_next_target_presentation_time
  exact min_le_right _ _

/-- Witness for C4 at a concrete input. -/
theorem target_presentation_time_le_cap_w :
    (0 : ℤ) < 3 ∧ (0 : ℤ) < (VsyncInfo.mk 0 0 16666666).presentation_interval ∧
    get_next_target_presentation_time 0 0 0 3 [] (VsyncInfo.mk 0 0 16666666) ≤
      0 + (VsyncInfo.mk 0 0 16666666).presentation_interval * 3 :=
  ⟨by norm_num, by norm_num,
    target_presentation_time_le_cap 0 0 0 3 [] (VsyncInfo.mk 0 0 16666666)
      (by norm_num) (by norm_num)⟩

/-- C5: when no future presentation info has both a latch time at least
`present_requested_time + minimum_frame_build_time` and a presentation time
at least `last_targeted_present + presentation_interval` (in particular for
an empty list), the function returns the fallback
`max(earliest_latch_time, earliest_vsync_time)` subject only to the
in-flight cap. -/
theorem target_presentation_time_fallback
    (present_requested_time last_targeted_present minimum_frame_build_time
      max_frames_in_flight : ℤ)
    (future_presentation_infos : List (ℤ × ℤ)) (vsync_info : VsyncInfo)
    (h : ∀ p ∈ future_presentation_infos,
      ¬(present_requested_time + minimum_frame_build_time ≤ p.1 ∧
        last_targeted_present + vsync_info.presentation_interval ≤ p.2)) :
    get_next_target_presentation_time present_requested_time
        last_targeted_present minimum_frame_build_time max_frames_in_flight
        future_presentation_infos vsync_info =
      min
        (max (present_requested_time + minimum_frame_build_time)
          (last_targeted_present + vsync_info.presentation_interval))
        (present_requested_time +
          vsync_info.presentation_interval * max_frames_in_flight) := by
  unfold get_next_target_presentation_time
  have hfind : future_presentation_infos.find?
      (fun p => decide (present_requested_time + minimum_frame_build_time ≤ p.1) &&
        decide (last_targeted_present + vsync_info.presentation_interval ≤ p.2)) =
      none := by
    apply List.find?_eq_none.mpr
    intro p hp
    simp only [Bool.and_eq_true, decide_eq_true_eq, not_and]
    intro h1 h2
    exact h p hp ⟨h1, h2⟩
  simp only [hfind]

/-- Witness for C5 at the empty prediction list. -/
theorem target_presentation_time_fallback_w :
    (∀ p ∈ ([] : List (ℤ × ℤ)),
      ¬((0 : ℤ) + 0 ≤ p.1 ∧
        (0 : ℤ) + (VsyncInfo.mk 0 0 16666666).presentation_interval ≤ p.2)) ∧
    get_next_target_presentation_time 0 0 0 3 [] (VsyncInfo.mk 0 0 16666666) =
      min (max ((0 : ℤ) + 0)
          ((0 : ℤ) + (VsyncInfo.mk 0 0 16666666).presentation_interval))
        (0 + (VsyncInfo.mk 0 0 16666666).presentation_interval * 3) :=
  ⟨by simp,
    target_presentation_time_fallback 0 0 0 3 [] (VsyncInfo.mk 0 0 16666666)
      (by simp)⟩

/-- C7: the vsync cache's record is first-improvement, not maximum: the new
cached presentation time is the first recorded presentation time strictly
greater than the cached one (unchanged when there is none); recording
`[(15,20),(25,30)]` into the fresh cache gives 20, and re-recording
`[(15,20),(25,30),(35,40),(45,50)]` then gives 30, not 50. -/
theorem update_future_presentation_times_first_improvement :
    (∀ (st : VsyncRecorderState) (future_presentations : List (ℤ × ℤ)),
      (UpdateFuturePresentationTimes st future_presentations).next_presentation_time =
        match future_presentations.find?
            (fun p => decide (st.next_presentation_time < p.2)) with
        | some p => p.2
        | none => st.next_presentation_time) ∧
    (UpdateFuturePresentationTimes initialVsyncRecorderState
        [(15, 20), (25, 30)]).next_presentation_time = 20 ∧
    (UpdateFuturePresentationTimes
        (UpdateFuturePresentationTimes initialVsyncRecorderState
          [(15, 20), (25, 30)])
        [(15, 20), (25, 30), (35, 40), (45, 50)]).next_presentation_time = 30 := by
  refine ⟨fun st future_presentations => ?_, by decide, by decide⟩
  induction future_presentations with
  | nil => rfl
  | cons p rest ih =>
    by_cases h : st.next_presentation_time < p.2
    · simp [UpdateFuturePresentationTimes, List.find?_cons, h]
    · simp only [UpdateFuturePresentationTimes, List.find?_cons,
        decide_eq_true_eq] at ih ⊢
      rw [if_neg h, ih]
      simp [h]

/-- C10: each record call either leaves the cached presentation time
unchanged or strictly increases it, so the cached value is non-decreasing
over any sequence of record calls; reads (`GetCurrentVsyncInfo`) are pure
functions of the state and change nothing. -/
theorem vsync_cache_monotone :
    (∀ (st : VsyncRecorderState) (future_presentations : List (ℤ × ℤ)),
      st.next_presentation_time ≤
        (UpdateFuturePresentationTimes st future_presentations).next_presentation_time) ∧
    (∀ (st : VsyncRecorderState) (future_presentations : List (ℤ × ℤ)),
      (UpdateFuturePresentationTimes st future_presentations).next_presentation_time =
          st.next_presentation_time ∨
        st.next_presentation_time <
          (UpdateFuturePresentationTimes st future_presentations).next_presentation_time) ∧
    (∀ (st : VsyncRecorderState) (updates : List (List (ℤ × ℤ))),
      st.next_presentation_time ≤
        (updates.foldl UpdateFuturePresentationTimes st).next_presentation_time) := by
  have step1 : ∀ (st : VsyncRecorderState) (future_presentations : List (ℤ × ℤ)),
      (UpdateFuturePresentationTimes st future_presentations).next_presentation_time =
          st.next_presentation_time ∨
        st.next_presentation_time <
          (UpdateFuturePresentationTimes st future_presentations).next_presentation_time := by
    intro st future_presentations
    induction future_presentations with
    | nil => exact Or.inl rfl
    | cons p rest ih =>
      by_cases h : st.next_presentation_time < p.2
      · right
        rw [show UpdateFuturePresentationTimes st (p :: rest) =
            { next_presentation_time := p.2, next_latch_point := p.1 } by
          simp [UpdateFuturePresentationTimes, h]]
        exact h
      · rw [show UpdateFuturePresentationTimes st (p :: rest) =
            UpdateFuturePresentationTimes st rest by
          simp [UpdateFuturePresentationTimes, h]]
        exact ih
  have le1 : ∀ (st : VsyncRecorderState) (future_presentations : List (ℤ × ℤ)),
      st.next_presentation_time ≤
        (UpdateFuturePresentationTimes st future_presentations).next_presentation_time := by
    intro st future_presentations
    rcases step1 st future_presentations with h | h
    · exact h.ge
    · exact h.le
  refine ⟨le1, step1, fun st updates => ?_⟩
  induction updates generalizing st with
  | nil => exact le_rfl
  | cons u rest ih =>
    exact le_trans (le1 st u) (ih (UpdateFuturePresentationTimes st u))

/-- C8 counterexample: before any predictions are recorded, the cache
returns the cached default presentation time 0, not a now-based estimate —
at clock reading `now = 1000000` ns the claimed value `now + interval` would
be 17666666. -/
theorem get_current_vsync_info_default_cex :
    (GetCurrentVsyncInfo initialVsyncRecorderState).presentation_time ≠
      1000000 + (GetCurrentVsyncInfo initialVsyncRecorderState).presentation_interval := by
  decide

/-- C8 amended: before any predictions are recorded, `GetCurrentVsyncInfo`
returns the default-constructed cached presentation time 0 (the epoch; the
now-based return in the source is unreachable) and the default presentation
interval of 1/60 s, which is at least 10 ms; as a pure function of the cache
state it never blocks or modifies the cache. -/
theorem get_current_vsync_info_default_values :
    (GetCurrentVsyncInfo initialVsyncRecorderState).presentation_time = 0 ∧
    (GetCurrentVsyncInfo initialVsyncRecorderState).presentation_interval =
      kDefaultPresentationIntervalNs ∧
    (10000000 : ℤ) ≤ kDefaultPresentationIntervalNs := by
  decide

/-- Any single successful transition leaves `last_targeted_present_` at
least where it was. -/
theorem step_last_targeted_mono (cfg : Config) (st : SessionState) (ev : Event)
    (st' : SessionState) (h : step cfg st ev = some st') :
    st.last_targeted_present ≤ st'.last_targeted_present := by
  cases ev with
  | initReply remaining future_presentations now nowPS =>
    unfold step at h
    dsimp only at h
    by_cases hi : st.initialized = true
    · rw [if_pos hi] at h
      exact Option.noConfusion h
    · rw [if_neg hi] at h
      by_cases hr : remaining ≤ 0
      · rw [if_pos hr] at h
        exact Option.noConfusion h
      · rw [if_neg hr] at h
        rcases PresentSession_cases _ _ _ _ h with ⟨rfl, _⟩ | ⟨_, _, _, _, hle⟩
        · exact le_rfl
        · exact hle
  | present now nowPS =>
    unfold step at h
    dsimp only at h
    by_cases hc : st.initialized = true ∧
        st.frames_in_flight < cfg.kMaxFramesInFlight
    · rw [if_pos hc] at h
      rcases PresentSession_cases _ _ _ _ h with ⟨rfl, _⟩ | ⟨_, _, _, _, hle⟩
      · exact le_rfl
      · exact hle
    · rw [if_neg hc] at h
      by_cases hd : st.frames_in_flight = cfg.kMaxFramesInFlight ∨
          st.initialized = false
      · rw [if_pos hd] at h
        injection h with h
        subst h
        exact le_rfl
      · rw [if_neg hd] at h
        exact Option.noConfusion h
  | onFramePresented num_presents_handled num_presents_allowed nowPS =>
    unfold step at h
    dsimp only at h
    by_cases hc : num_presents_handled = 0 ∨
        st.frames_in_flight < (num_presents_handled : ℤ)
    · rw [if_pos hc] at h
      exact Option.noConfusion h
    · rw [if_neg hc] at h
      rcases Option.map_eq_some'.mp h with ⟨a, ha, hb⟩
      subst hb
      split at ha
      · rcases PresentSession_cases _ _ _ _ ha with ⟨rfl, _⟩ | ⟨_, _, _, _, hle⟩
        · exact le_rfl
        · exact hle
      · injection ha with ha
        subst ha
        exact le_rfl
  | present2Reply remaining future_presentations =>
    unfold step at h
    dsimp only at h
    by_cases hc : st.outstanding_present2 = 0
    · rw [if_pos hc] at h
      exact Option.noConfusion h
    · rw [if_neg hc] at h
      injection h with h
      subst h
      exact le_rfl

/-- Over any event sequence, `last_targeted_present_` never decreases. -/
theorem run_last_targeted_mono (cfg : Config) (st : SessionState)
    (evs : List Event) (st' : SessionState) (h : run cfg st evs = some st') :
    st.last_targeted_present ≤ st'.last_targeted_present := by
  induction evs generalizing st with
  | nil =>
    injection h with h
    subst h
    exact le_rfl
  | cons ev evs ih =>
    unfold run at h
    rcases Option.bind_eq_some.mp h with ⟨st1, h1, h2⟩
    exact le_trans (step_last_targeted_mono cfg st ev st1 h1) (ih st1 h2)

/-- C3: `last_targeted_present` is non-decreasing: each successful
transition, and hence every sequence of submissions on one scheduler
instance, leaves it greater than or equal to its previous value (a computed
target earlier than the previous one is clamped up to it inside
`PresentSession`). -/
theorem last_targeted_present_monotone :
    (∀ (cfg : Config) (st : SessionState) (ev : Event) (st' : SessionState),
      step cfg st ev = some st' →
        st.last_targeted_present ≤ st'.last_targeted_present) ∧
    (∀ (cfg : Config) (st : SessionState) (evs : List Event)
        (st' : SessionState),
      run cfg st evs = some st' →
        st.last_targeted_present ≤ st'.last_targeted_present) :=
  ⟨step_last_targeted_mono, run_last_targeted_mono⟩

/-- Witness for C3 on a concrete one-event trace. -/
theorem last_targeted_present_monotone_w :
    run { kMaxFramesInFlight := 3, minimum_frame_build_time := 0 }
        initialSessionState [Event.present 5 5] =
      some throttledFromInitial ∧
    initialSessionState.last_targeted_present ≤
      throttledFromInitial.last_targeted_present :=
  ⟨by decide,
    last_targeted_present_monotone.2
      { kMaxFramesInFlight := 3, minimum_frame_build_time := 0 }
      initialSessionState [Event.present 5 5] throttledFromInitial (by decide)⟩

/-- Every successful transition preserves the in-flight bookkeeping
invariant, provided the throttle constant is at least one. -/
theorem step_preserves_frames_inv (cfg : Config)
    (hk : 1 ≤ cfg.kMaxFramesInFlight) (st : SessionState) (ev : Event)
    (st' : SessionState) (hinv : FramesInFlightInv cfg st)
    (h : step cfg st ev = some st') : FramesInFlightInv cfg st' := by
  obtain ⟨h0, hle, hpre⟩ := hinv
  cases ev with
  | initReply remaining future_presentations now nowPS =>
    unfold step at h
    dsimp only at h
    by_cases hi : st.initialized = true
    · rw [if_pos hi] at h
      exact Option.noConfusion h
    · rw [if_neg hi] at h
      by_cases hr : remaining ≤ 0
      · rw [if_pos hr] at h
        exact Option.noConfusion h
      · rw [if_neg hr] at h
        have hif : st.initialized = false := by simpa using hi
        have hfif : st.frames_in_flight = 0 := hpre hif
        rcases PresentSession_cases _ _ _ _ h with ⟨rfl, ha⟩ | ⟨hf, hi2, _, _, _⟩
        · have hrem : remaining = 0 := ha
          exact absurd (le_of_eq hrem) hr
        · have hf' : st'.frames_in_flight = st.frames_in_flight + 1 := hf
          have hi2' : st'.initialized = true := hi2
          refine ⟨by omega, by omega, fun hcon => ?_⟩
          rw [hi2'] at hcon
          exact Bool.noConfusion hcon
  | present now nowPS =>
    unfold step at h
    dsimp only at h
    by_cases hcnd : st.initialized = true ∧
        st.frames_in_flight < cfg.kMaxFramesInFlight
    · obtain ⟨hi1, hlt⟩ := hcnd
      rw [if_pos ⟨hi1, hlt⟩] at h
      rcases PresentSession_cases _ _ _ _ h with ⟨rfl, _⟩ | ⟨hf, hi2, _, _, _⟩
      · exact ⟨h0, hle, hpre⟩
      · have hf' : st'.frames_in_flight = st.frames_in_flight + 1 := hf
        have hi2' : st'.initialized = st.initialized := hi2
        refine ⟨by omega, by omega, fun hcon => ?_⟩
        rw [hi2', hi1] at hcon
        exact Bool.noConfusion hcon
    · rw [if_neg hcnd] at h
      by_cases hd : st.frames_in_flight = cfg.kMaxFramesInFlight ∨
          st.initialized = false
      · rw [if_pos hd] at h
        injection h with h
        subst h
        exact ⟨h0, hle, hpre⟩
      · rw [if_neg hd] at h
        exact Option.noConfusion h
  | onFramePresented num_presents_handled num_presents_allowed nowPS =>
    unfold step at h
    dsimp only at h
    by_cases hc : num_presents_handled = 0 ∨
        st.frames_in_flight < (num_presents_handled : ℤ)
    · rw [if_pos hc] at h
      exact Option.noConfusion h
    · rw [if_neg hc] at h
      push_neg at hc
      obtain ⟨hne, hlef⟩ := hc
      have hh1 : 1 ≤ (num_presents_handled : ℤ) := by
        exact_mod_cast Nat.one_le_iff_ne_zero.mpr hne
      rcases Option.map_eq_some'.mp h with ⟨a, ha, hb⟩
      subst hb
      split at ha
      · rcases PresentSession_cases _ _ _ _ ha with ⟨rfl, _⟩ | ⟨hf, hi2, _, _, _⟩
        · refine ⟨?_, ?_, fun hcon => ?_⟩
          · show (0 : ℤ) ≤ st.frames_in_flight - (num_presents_handled : ℤ)
            omega
          · show st.frames_in_flight - (num_presents_handled : ℤ) ≤
              cfg.kMaxFramesInFlight
            omega
          · have hz : st.frames_in_flight = 0 := hpre hcon
            show st.frames_in_flight - (num_presents_handled : ℤ) = 0
            omega
        · have hf' : a.frames_in_flight =
              st.frames_in_flight - (num_presents_handled : ℤ) + 1 := hf
          have hi2' : a.initialized = st.initialized := hi2
          refine ⟨?_, ?_, fun hcon => ?_⟩
          · show (0 : ℤ) ≤ a.frames_in_flight
            omega
          · show a.frames_in_flight ≤ cfg.kMaxFramesInFlight
            omega
          · have hsf : st.initialized = false := by
              rw [← hi2']
              exact hcon
            have hz : st.frames_in_flight = 0 := hpre hsf
            show a.frames_in_flight = 0
            omega
      · injection ha with ha
        subst ha
        refine ⟨?_, ?_, fun hcon => ?_⟩
        · show (0 : ℤ) ≤ st.frames_in_flight - (num_presents_handled : ℤ)
          omega
        · show st.frames_in_flight - (num_presents_handled : ℤ) ≤
            cfg.kMaxFramesInFlight
          omega
        · have hz : st.frames_in_flight = 0 := hpre hcon
          show st.frames_in_flight - (num_presents_handled : ℤ) = 0
          omega
  | present2Reply remaining future_presentations =>
    unfold step at h
    dsimp only at h
    by_cases hc : st.outstanding_present2 = 0
    · rw [if_pos hc] at h
      exact Option.noConfusion h
    · rw [if_neg hc] at h
      injection h with h
      subst h
      exact ⟨h0, hle, hpre⟩

/-- The in-flight bookkeeping invariant holds along any event sequence. -/
theorem run_preserves_frames_inv (cfg : Config)
    (hk : 1 ≤ cfg.kMaxFramesInFlight) (st : SessionState) (evs : List Event)
    (st' : SessionState) (hinv : FramesInFlightInv cfg st)
    (h : run cfg st evs = some st') : FramesInFlightInv cfg st' := by
  induction evs generalizing st with
  | nil =>
    injection h with h
    subst h
    exact hinv
  | cons ev evs ih =>
    unfold run at h
    rcases Option.bind_eq_some.mp h with ⟨st1, h1, h2⟩
    exact ih st1 (step_preserves_frames_inv cfg hk st ev st1 hinv h1) h2

/-- C2 amended: from the initial state, over every sequence of
`request_present` calls and compositor callbacks, `frames_in_flight` stays
between 0 and the construction-time constant `kMaxFramesInFlight` — the
bound the code actually enforces (its throttle compares against
`kMaxFramesInFlight`, not against the last reported
`frames_in_flight_allowed`). -/
theorem frames_in_flight_bounded (cfg : Config)
    (hk : 1 ≤ cfg.kMaxFramesInFlight) (evs : List Event) (st : SessionState)
    (h : run cfg initialSessionState evs = some st) :
    0 ≤ st.frames_in_flight ∧ st.frames_in_flight ≤ cfg.kMaxFramesInFlight := by
  have hinv := run_preserves_frames_inv cfg hk initialSessionState evs st
    ⟨le_rfl, (by omega : (0 : ℤ) ≤ cfg.kMaxFramesInFlight), fun _ => rfl⟩ h
  exact ⟨hinv.1, hinv.2.1⟩

/-- Witness for C2 on the concrete startup trace. -/
theorem frames_in_flight_bounded_w :
    (1 : ℤ) ≤ 3 ∧
    run { kMaxFramesInFlight := 3, minimum_frame_build_time := 0 }
        initialSessionState [Event.initReply 1 [] 0 0] =
      some stateAfterFirstSubmit ∧
    (0 ≤ stateAfterFirstSubmit.frames_in_flight ∧
      stateAfterFirstSubmit.frames_in_flight ≤ (3 : ℤ)) :=
  ⟨by norm_num, by decide,
    frames_in_flight_bounded
      { kMaxFramesInFlight := 3, minimum_frame_build_time := 0 }
      (by norm_num) [Event.initReply 1 [] 0 0] stateAfterFirstSubmit
      (by decide)⟩

/-- C2 counterexample: the compositor grants an initial capacity of 1, one
frame is submitted, and the `Present2` reply reports remaining capacity 0
while that frame is still in flight — an initialized state in which
`frames_in_flight = 1` exceeds `frames_in_flight_allowed = 0`, refuting the
claimed invariant as stated. -/
theorem frames_in_flight_exceeds_allowed_cex :
    run { kMaxFramesInFlight := 3, minimum_frame_build_time := 0 }
        initialSessionState
        [Event.initReply 1 [] 0 0, Event.present2Reply 0 []] =
      some stateCapacityZero ∧
    stateCapacityZero.initialized = true ∧
    stateCapacityZero.frames_in_flight_allowed <
      stateCapacityZero.frames_in_flight := by
  refine ⟨by decide, rfl, by decide⟩

/-- C1 (code defect): on the first submission, the computed-and-clamped
target presentation time — recorded in `last_targeted_present` — is
16666666 ns, but the requested presentation time passed to `Present2` is the
debug leftover `Now() + 3 * interval` = 49999998 ns; the two differ, so the
submission does not carry the clamped target. -/
theorem present2_requested_time_ne_clamped_target :
    run { kMaxFramesInFlight := 3, minimum_frame_build_time := 0 }
        initialSessionState [Event.initReply 1 [] 0 0] =
      some stateAfterFirstSubmit ∧
    stateAfterFirstSubmit.submissions =
      [{ requested_presentation_time := 49999998
         requested_prediction_span := 99999996 }] ∧
    stateAfterFirstSubmit.last_targeted_present = 16666666 ∧
    (49999998 : ℤ) ≠ 16666666 := by
  refine ⟨by decide, rfl, rfl, by decide⟩

/-- C6: a `Present` call finding the in-flight budget exhausted (initialized
with `frames_in_flight` at the `kMaxFramesInFlight` throttle, or not yet
initialized) records the request, marks the submission pending, clears the
capacity signal and leaves `frames_in_flight` unchanged; an
`OnFramePresented` callback that then restores capacity retries exactly one
deferred submission — it clears the pending flag and the in-flight count
changes by exactly `1 - num_presents_handled` (the single retried submit). -/
theorem deferred_submission_retry :
    (∀ (cfg : Config) (st : SessionState) (now nowPS : ℤ),
      (st.initialized = false ∨
        (st.initialized = true ∧
          st.frames_in_flight = cfg.kMaxFramesInFlight)) →
      step cfg st (Event.present now nowPS) =
        some { st with
            present_requested_time := now
            present_session_pending := true
            signal_high := false } ∧
      ({ st with
          present_requested_time := now
          present_session_pending := true
          signal_high := false } : SessionState).frames_in_flight =
        st.frames_in_flight) ∧
    (∀ (cfg : Config) (st : SessionState) (nowPS : ℤ)
        (num_presents_handled : ℕ) (num_presents_allowed : ℤ),
      st.present_session_pending = true →
      1 ≤ num_presents_handled →
      (num_presents_handled : ℤ) ≤ st.frames_in_flight →
      0 < num_presents_allowed →
      fmlTimePointMin < st.present_requested_time →
      ∃ st', step cfg st
          (Event.onFramePresented num_presents_handled num_presents_allowed
            nowPS) = some st' ∧
        st'.present_session_pending = false ∧
        st'.frames_in_flight =
          st.frames_in_flight - (num_presents_handled : ℤ) + 1) := by
  constructor
  · intro cfg st now nowPS hcap
    refine ⟨?_, rfl⟩
    unfold step
    dsimp only
    have hc1 : ¬(st.initialized = true ∧
        st.frames_in_flight < cfg.kMaxFramesInFlight) := by
      rcases hcap with hni | ⟨_, hmax⟩
      · rintro ⟨hi, _⟩
        rw [hni] at hi
        exact Bool.noConfusion hi
      · rintro ⟨_, hlt⟩
        rw [hmax] at hlt
        exact lt_irrefl _ hlt
    have hc2 : st.frames_in_flight = cfg.kMaxFramesInFlight ∨
        st.initialized = false := by
      rcases hcap with hni | ⟨_, hmax⟩
      · exact Or.inr hni
      · exact Or.inl hmax
    rw [if_neg hc1, if_pos hc2]
  · intro cfg st nowPS num_presents_handled num_presents_allowed hpend hh1
      hhle hcap hreq
    unfold step
    dsimp only
    have hc : ¬(num_presents_handled = 0 ∨
        st.frames_in_flight < (num_presents_handled : ℤ)) := by
      push_neg
      exact ⟨by omega, hhle⟩
    rw [if_neg hc]
    have hpend' : ({ st with
        frames_in_flight_allowed := num_presents_allowed
        frames_in_flight := st.frames_in_flight -
          (num_presents_handled : ℤ) } : SessionState).present_session_pending =
        true := hpend
    rw [if_pos hpend']
    obtain ⟨stp, hps⟩ := PresentSession_success cfg nowPS
      { st with
        frames_in_flight_allowed := num_presents_allowed
        frames_in_flight := st.frames_in_flight - (num_presents_handled : ℤ) }
      (by
        show num_presents_allowed ≠ 0
        omega)
      hreq
    rcases PresentSession_cases _ _ _ _ hps with ⟨rfl, ha0⟩ | ⟨hf, _, hp, _, _⟩
    · have : num_presents_allowed = 0 := ha0
      omega
    · refine ⟨{ stp with signal_high := true }, ?_, hp, ?_⟩
      · rw [hps]
        rfl
      · show stp.frames_in_flight =
          st.frames_in_flight - (num_presents_handled : ℤ) + 1
        exact hf

/-- Witness for C6 at concrete inputs: a pre-initialization `Present` call,
and a completion callback retrying the pending submission of
`examplePendingState`. -/
theorem deferred_submission_retry_w :
    (initialSessionState.initialized = false ∨
      (initialSessionState.initialized = true ∧
        initialSessionState.frames_in_flight = (3 : ℤ))) ∧
    step { kMaxFramesInFlight := 3, minimum_frame_build_time := 0 }
        initialSessionState (Event.present 5 5) =
      some { initialSessionState with
          present_requested_time := 5
          present_session_pending := true
          signal_high := false } ∧
    (examplePendingState.present_session_pending = true ∧
      1 ≤ (1 : ℕ) ∧
      ((1 : ℕ) : ℤ) ≤ examplePendingState.frames_in_flight ∧
      (0 : ℤ) < 2 ∧
      fmlTimePointMin < examplePendingState.present_requested_time) ∧
    (∃ st', step { kMaxFramesInFlight := 3, minimum_frame_build_time := 0 }
        examplePendingState (Event.onFramePresented 1 2 9) = some st' ∧
      st'.present_session_pending = false ∧
      st'.frames_in_flight =
        examplePendingState.frames_in_flight - ((1 : ℕ) : ℤ) + 1) :=
  ⟨Or.inl rfl,
    ((deferred_submission_retry.1
      { kMaxFramesInFlight := 3, minimum_frame_build_time := 0 }
      initialSessionState 5 5 (Or.inl rfl)).1),
    ⟨rfl, le_rfl, by decide, by decide, by decide⟩,
    deferred_submission_retry.2
      { kMaxFramesInFlight := 3, minimum_frame_build_time := 0 }
      examplePendingState 9 1 2 rfl le_rfl (by decide) (by decide) (by decide)⟩

/-- C9: for the startup capacity report, a remaining capacity of zero or
less trips the fatal `FML_CHECK(frames_in_flight_allowed_ > 0)` (no
successor state); a positive report initializes the scheduler, seeds
`frames_in_flight_allowed` from the report, and completes without hitting
any fatal branch. -/
theorem init_capacity_report (cfg : Config) (remaining : ℤ)
    (future_presentations : List (ℤ × ℤ)) (now nowPS : ℤ)
    (st : SessionState) (hni : st.initialized = false) :
    (remaining ≤ 0 →
      step cfg st
        (Event.initReply remaining future_presentations now nowPS) = none) ∧
    (0 < remaining → fmlTimePointMin < now →
      ∃ st', step cfg st
          (Event.initReply remaining future_presentations now nowPS) =
          some st' ∧
        st'.initialized = true ∧
        st'.frames_in_flight_allowed = remaining) := by
  have hni' : ¬(st.initialized = true) := by
    rw [hni]
    exact Bool.noConfusion
  constructor
  · intro hr
    unfold step
    dsimp only
    rw [if_neg hni', if_pos hr]
  · intro hr hnow
    unfold step
    dsimp only
    rw [if_neg hni', if_neg (not_le.mpr hr)]
    obtain ⟨st', hps⟩ := PresentSession_success cfg nowPS
      { st with
        frames_in_flight_allowed := remaining
        vsync := UpdateFuturePresentationTimes st.vsync future_presentations
        signal_high := true
        initialized := true
        present_requested_time := now }
      (by
        show remaining ≠ 0
        omega)
      hnow
    rcases PresentSession_cases _ _ _ _ hps with ⟨rfl, ha0⟩ | ⟨_, hi2, _, hal, _⟩
    · exact ⟨_, hps, rfl, rfl⟩
    · refine ⟨st', hps, ?_, ?_⟩
      · rw [hi2]
      · rw [hal]

/-- Witness for C9: a zero report aborts, a report of 1 initializes and
seeds the allowed count. -/
theorem init_capacity_report_w :
    initialSessionState.initialized = false ∧
    step { kMaxFramesInFlight := 3, minimum_frame_build_time := 0 }
        initialSessionState (Event.initReply 0 [] 0 0) = none ∧
    (∃ st', step { kMaxFramesInFlight := 3, minimum_frame_build_time := 0 }
        initialSessionState (Event.initReply 1 [] 0 0) = some st' ∧
      st'.initialized = true ∧ st'.frames_in_flight_allowed = 1) :=
  ⟨rfl,
    (init_capacity_report
      { kMaxFramesInFlight := 3, minimum_frame_build_time := 0 }
      0 [] 0 0 initialSessionState rfl).1 le_rfl,
    (init_capacity_report
      { kMaxFramesInFlight := 3, minimum_frame_build_time := 0 }
      1 [] 0 0 initialSessionState rfl).2 one_pos (by decide)⟩

end FlutterRunner
